import Mathlib

/-!
Verification of the jpeg-rust baseline JFIF/JPEG decoder.

The development shallowly embeds the two source files of the repository,
src/src/jpeg/jfif.rs and src/src/main.rs, into Lean.  Bytes are natural
numbers below 256; Rust usize arithmetic is modelled as natural-number
arithmetic modulo 2^64 (release-mode wrapping); fallible operations
(indexing, slicing, explicit Err returns and the panic macro) are modelled
by the Outcome type below, which separates ordinary Err returns from
aborts of the process.  The marker-scanning loop of JFIFImage::parse is
modelled with an explicit fuel parameter; the fuel chosen in
JFIFImage.parse is large enough for every terminating run, and running
out of fuel is a distinguished, non-success outcome.

The repository uses two modules, jpeg::huffman and transform, whose code
is not among the repository files.  Their definitions below are modelled
from the specification (sections 4.2 and 4.3) and are marked as such.
-/

/-- The Rust usize modulus 2^64, written as a numeral. -/
def W : ℕ := 18446744073709551616

/-- The explicit Err values JFIFImage::parse returns (each constructor is
one Err return site of the source, which uses strings). -/
inductive ErrKind where
  | tooShort : ErrKind
  | headerMismatch : ErrKind
  | illegalVersion : ℕ → ℕ → ErrKind
  | illegalUnit : ℕ → ErrKind
deriving DecidableEq

/-- The abort sites of the source: each constructor is one way the Rust
code terminates the process (an explicit panic macro call, an expect on a
missing table, or an out-of-bounds index or slice). -/
inductive PanicKind where
  | indexOOB : PanicKind
  | sliceOOB : PanicKind
  | fixmeBaselineDCT : PanicKind
  | fixmeEasyWay : PanicKind
  | missingACTable : PanicKind
  | missingDCTable : PanicKind
  | noFrameComponent : PanicKind
  | noFrameHeader : PanicKind
  | missingQuantTable : PanicKind
  | blockLen : PanicKind
  | restartIntervalDef : PanicKind
  | whatToDo : PanicKind
  | zigzagLen : PanicKind
  | huffmanFail : PanicKind
deriving DecidableEq

/-- Result of running a piece of the Rust code: a value, an Err return, an
abort of the process, or exhaustion of the loop fuel (a model artifact,
unreachable for the fuel JFIFImage.parse supplies). -/
inductive Outcome (α : Type) where
  | ok : α → Outcome α
  | err : ErrKind → Outcome α
  | panic : PanicKind → Outcome α
  | fuelOut : Outcome α
deriving DecidableEq

/-- Sequencing of fallible steps: Err, abort and fuel exhaustion all stop
the computation, as in the source. -/
def Outcome.bind {α β : Type} : Outcome α → (α → Outcome β) → Outcome β
  | Outcome.ok a, f => f a
  | Outcome.err e, _ => Outcome.err e
  | Outcome.panic p, _ => Outcome.panic p
  | Outcome.fuelOut, _ => Outcome.fuelOut

/-- Whether an outcome is a success. -/
def Outcome.isOk {α : Type} : Outcome α → Bool
  | Outcome.ok _ => true
  | _ => false

/-- Rust Vec indexing vec[i]: the value, or an abort when out of bounds. -/
def geti (v : List ℕ) (i : ℕ) : Outcome ℕ :=
  match v[i]? with
  | some b => Outcome.ok b
  | none => Outcome.panic PanicKind.indexOOB

/-- Rust slicing vec[a..b]: the sublist, or an abort when the range is
invalid or past the end. -/
def subslice (v : List ℕ) (a b : ℕ) : Outcome (List ℕ) :=
  if a ≤ b ∧ b ≤ v.length then Outcome.ok ((v.drop a).take (b - a))
  else Outcome.panic PanicKind.sliceOOB

/-- Rust slicing vec[a..]: the tail, or an abort when a exceeds the length. -/
def sliceFrom (v : List ℕ) (a : ℕ) : Outcome (List ℕ) :=
  if a ≤ v.length then Outcome.ok (v.drop a)
  else Outcome.panic PanicKind.sliceOOB

/-- Rust fixed-array write arr[i] = x for the four-slot table arrays: an
abort when the index is out of bounds. -/
def setArr {α : Type} (l : List α) (i : ℕ) (a : α) : Outcome (List α) :=
  if i < l.length then Outcome.ok (l.set i a)
  else Outcome.panic PanicKind.indexOOB

/-- Rust fixed-array read arr[i]: an abort when out of bounds. -/
def getArr {α : Type} (l : List α) (i : ℕ) : Outcome α :=
  match l[i]? with
  | some a => Outcome.ok a
  | none => Outcome.panic PanicKind.indexOOB

/-- Rust Option::expect: the value, or the given abort. -/
def expectSome {α : Type} (o : Option α) (p : PanicKind) : Outcome α :=
  match o with
  | some a => Outcome.ok a
  | none => Outcome.panic p

/-- Wrapping i16 arithmetic (Rust release-mode overflow semantics). -/
def wrap16 (z : ℤ) : ℤ := (z + 32768) % 65536 - 32768

namespace huffman

/-- Modelled from the spec: the repository uses a module jpeg::huffman that
is not among the repository files.  Per section 4.2 a Huffman table is the
16 per-length code counts (size area) and the ordered symbol list (data
area); the decode structure is derived from them on demand. -/
structure Table where
  size_area : List ℕ
  data_area : List ℕ
deriving DecidableEq

/-- Modelled from the spec: jpeg::huffman::Table::from_size_data_tables is
not among the repository files.  It stores the size and data areas of a
DHT segment for later canonical code assignment (section 4.2). -/
def Table.from_size_data_tables (size_area data_area : List ℕ) : Table :=
  Table.mk size_area data_area

/-- Modelled from the spec: canonical JPEG code assignment (section 4.2,
Annex C).  Codes are assigned in increasing length order; within a length
they are consecutive integers; the starting code of the next length is
(last code + 1) shifted left once.  Produces (length, code, symbol)
triples. -/
def assignCodes : ℕ → ℕ → List ℕ → List ℕ → List (ℕ × ℕ × ℕ)
  | _, _, [], _ => []
  | len, code, c :: rest, syms =>
    ((List.range c).map (fun k => (len, code + k, syms.getD k 0)))
      ++ assignCodes (len + 1) ((code + c) * 2) rest (syms.drop c)

/-- Modelled from the spec: one bit of the sequential MSB-first bit view
over the entropy data (section 4.1), with the byte-stuffing rule: after a
consumed 0xFF byte a following 0x00 is skipped, and any other byte after
0xFF (an embedded marker), like reading past the end, fails.  The state is
(byte index, bit offset). -/
def read_bit (data : List ℕ) (s : ℕ × ℕ) : Outcome (ℕ × (ℕ × ℕ)) :=
  match data[s.1]? with
  | none => Outcome.panic PanicKind.huffmanFail
  | some b =>
    let bitv := b / 2 ^ (7 - s.2) % 2
    if s.2 = 7 then
      if b = 255 then
        match data[s.1 + 1]? with
        | some 0 => Outcome.ok (bitv, (s.1 + 2, 0))
        | _ => Outcome.panic PanicKind.huffmanFail
      else Outcome.ok (bitv, (s.1 + 1, 0))
    else Outcome.ok (bitv, (s.1, s.2 + 1))

/-- Modelled from the spec: an n-bit unsigned value built MSB-first
(section 4.1). -/
def read_bits (data : List ℕ) : ℕ → (ℕ × ℕ) → ℕ → Outcome (ℕ × (ℕ × ℕ))
  | 0, s, acc => Outcome.ok (acc, s)
  | n + 1, s, acc =>
    Outcome.bind (read_bit data s) fun bs =>
    read_bits data n bs.2 (acc * 2 + bs.1)

/-- Modelled from the spec: decode one Huffman symbol by reading one bit
at a time, maintaining the running code value and length and testing
membership among that length's codes, failing after 16 lengths
(section 4.2).  The first argument is the fuel (16 at top level). -/
def decodeSym (codes : List (ℕ × ℕ × ℕ)) (data : List ℕ) :
    ℕ → ℕ → ℕ → (ℕ × ℕ) → Outcome (ℕ × (ℕ × ℕ))
  | 0, _, _, _ => Outcome.panic PanicKind.huffmanFail
  | fuel + 1, len, code, s =>
    Outcome.bind (read_bit data s) fun bs =>
    let code2 := code * 2 + bs.1
    let len2 := len + 1
    match codes.find? (fun e => e.1 == len2 && e.2.1 == code2) with
    | some e => Outcome.ok (e.2.2, bs.2)
    | none => decodeSym codes data fuel len2 code2 bs.2

/-- Modelled from the spec: the JPEG magnitude-extend rule for category t
(section 4.3): a read value with high bit 0 stands for value - (2^t - 1),
otherwise for itself. -/
def extend (v t : ℕ) : ℤ :=
  if v < 2 ^ (t - 1) then (v : ℤ) - (2 ^ t - 1) else (v : ℤ)

/-- Modelled from the spec: the AC coefficient loop (section 4.3).
Symbol 0x00 ends the block, 0xF0 skips sixteen zeros, any other symbol is
a zero-run nibble and a magnitude category nibble.  First argument is
recursion fuel, second the number of remaining coefficient positions. -/
def acLoop (codes : List (ℕ × ℕ × ℕ)) (data : List ℕ) :
    ℕ → ℕ → (ℕ × ℕ) → Outcome (List ℤ × (ℕ × ℕ))
  | 0, _, _ => Outcome.panic PanicKind.huffmanFail
  | _ + 1, 0, s => Outcome.ok ([], s)
  | fuel + 1, rem + 1, s =>
    Outcome.bind (decodeSym codes data 16 0 0 s) fun syms =>
    if syms.1 = 0 then Outcome.ok (List.replicate (rem + 1) 0, syms.2)
    else if syms.1 = 240 then
      if rem + 1 < 16 then Outcome.panic PanicKind.huffmanFail
      else
        Outcome.bind (acLoop codes data fuel (rem + 1 - 16) syms.2) fun ps =>
        Outcome.ok (List.replicate 16 0 ++ ps.1, ps.2)
    else
      let r := syms.1 / 16
      let sz := syms.1 % 16
      if rem + 1 < r + 1 then Outcome.panic PanicKind.huffmanFail
      else
        Outcome.bind (read_bits data sz syms.2 0) fun vs =>
        Outcome.bind (acLoop codes data fuel (rem - r) vs.2) fun ps =>
        Outcome.ok (List.replicate r 0 ++ (extend vs.1 sz :: ps.1), ps.2)

/-- Modelled from the spec: the correct zigzag-to-natural index sequence,
regenerated from the JPEG standard as the design notes instruct (the j-th
zigzag coefficient lands at natural position zzNatural j). -/
def zzNatural : List ℕ :=
  [0, 1, 8, 16, 9, 2, 3, 10, 17, 24, 32, 25, 18, 11, 4, 5, 12, 19, 26, 33,
   40, 48, 41, 34, 27, 20, 13, 6, 7, 14, 21, 28, 35, 42, 49, 56, 57, 50, 43,
   36, 29, 22, 15, 23, 30, 37, 44, 51, 58, 59, 52, 45, 38, 31, 39, 46, 53,
   60, 61, 54, 47, 55, 62, 63]

/-- Modelled from the spec: map a 64-entry zigzag-order block to natural
raster order (section 4.3 step 3). -/
def unzigzag (zz : List ℤ) : List ℤ :=
  (List.range 64).map (fun k => zz.getD (zzNatural.indexOf k) 0)

/-- Modelled from the spec: jpeg::huffman::decode is not among the
repository files.  Per section 4.3 it decodes exactly one 8 by 8 block
from the head of the data: one DC magnitude category and its extended
difference (the caller passes no predictor, so the difference itself is
the DC value), then the AC loop, then the zigzag-to-natural permutation.
The second component is the number of whole bytes the block consumed
(the caller adds it to its byte cursor). -/
def decode (ac_table dc_table : Table) (data : List ℕ) :
    Outcome (List ℤ × ℕ) :=
  Outcome.bind
    (decodeSym (assignCodes 1 0 dc_table.size_area dc_table.data_area)
      data 16 0 0 (0, 0)) fun ts =>
  Outcome.bind
    (if ts.1 = 0 then Outcome.ok ((0 : ℤ), ts.2)
     else
       Outcome.bind (read_bits data ts.1 ts.2 0) fun vs =>
       Outcome.ok (extend vs.1 ts.1, vs.2)) fun dcs =>
  Outcome.bind
    (acLoop (assignCodes 1 0 ac_table.size_area ac_table.data_area)
      data 64 63 dcs.2) fun acs =>
  let natural := unzigzag (dcs.1 :: acs.1)
  let bytes_used := if acs.2.2 = 0 then acs.2.1 else acs.2.1 + 1
  Outcome.ok (natural, bytes_used)

end huffman

namespace jfif

/-- JFIFUnits (jfif.rs lines 12-28): the unit byte values the source
accepts are 1, 2 and 3. -/
inductive JFIFUnits where
  | NoUnits : JFIFUnits
  | DotsPerInch : JFIFUnits
  | DotsPerCm : JFIFUnits
deriving DecidableEq

/-- JFIFUnits::from_u8 (jfif.rs lines 20-27). -/
def JFIFUnits.from_u8 (byte : ℕ) : Outcome JFIFUnits :=
  match byte with
  | 1 => Outcome.ok JFIFUnits.NoUnits
  | 2 => Outcome.ok JFIFUnits.DotsPerInch
  | 3 => Outcome.ok JFIFUnits.DotsPerCm
  | b => Outcome.err (ErrKind.illegalUnit b)

/-- JFIFVersion (jfif.rs lines 30-34). -/
inductive JFIFVersion where
  | V1_01 : JFIFVersion
deriving DecidableEq

/-- JFIFVersion::from_bytes (jfif.rs lines 36-43). -/
def JFIFVersion.from_bytes (msb lsb : ℕ) : Outcome JFIFVersion :=
  match msb, lsb with
  | 1, 1 => Outcome.ok JFIFVersion.V1_01
  | m, l => Outcome.err (ErrKind.illegalVersion m l)

/-- FrameComponentHeader (jfif.rs lines 81-87). -/
structure FrameComponentHeader where
  component_id : ℕ
  horizontal_sampling_factor : ℕ
  vertical_sampling_factor : ℕ
  quantization_selector : ℕ
deriving DecidableEq

/-- FrameHeader (jfif.rs lines 66-73). -/
structure FrameHeader where
  sample_precision : ℕ
  num_lines : ℕ
  samples_per_line : ℕ
  image_components : ℕ
  frame_components : List FrameComponentHeader
deriving DecidableEq

/-- FrameHeader::component_header (jfif.rs lines 75-79). -/
def FrameHeader.component_header (fh : FrameHeader) (id : ℕ) :
    Option FrameComponentHeader :=
  fh.frame_components.find? (fun c => c.component_id == id)

/-- JFIFImage (jfif.rs lines 48-64).  The four-slot Rust arrays are lists
of length four; dimensions holds the (x density, y density) pair of the
APP0 segment exactly as the source stores it. -/
structure JFIFImage where
  version : JFIFVersion
  units : JFIFUnits
  dimensions : ℕ × ℕ
  thumbnail_dimensions : ℕ × ℕ
  comment : Option String
  huffman_ac_tables : List (Option huffman.Table)
  huffman_dc_tables : List (Option huffman.Table)
  quantization_tables : List (Option (List ℕ))
  frame_header : Option FrameHeader
  data_index : ℕ
  raw_data : List ℕ
deriving DecidableEq

/-- Field update used by the quantization-table branch. -/
def setQuantizationTables (img : JFIFImage) (q : List (Option (List ℕ))) :
    JFIFImage :=
  JFIFImage.mk img.version img.units img.dimensions img.thumbnail_dimensions
    img.comment img.huffman_ac_tables img.huffman_dc_tables q
    img.frame_header img.data_index img.raw_data

/-- Field update used by the Huffman-table branch (DC class). -/
def setDcTables (img : JFIFImage) (t : List (Option huffman.Table)) :
    JFIFImage :=
  JFIFImage.mk img.version img.units img.dimensions img.thumbnail_dimensions
    img.comment img.huffman_ac_tables t img.quantization_tables
    img.frame_header img.data_index img.raw_data

/-- Field update used by the Huffman-table branch (AC class). -/
def setAcTables (img : JFIFImage) (t : List (Option huffman.Table)) :
    JFIFImage :=
  JFIFImage.mk img.version img.units img.dimensions img.thumbnail_dimensions
    img.comment t img.huffman_dc_tables img.quantization_tables
    img.frame_header img.data_index img.raw_data

/-- Field update used by the frame-header branch. -/
def setFrameHeader (img : JFIFImage) (fh : Option FrameHeader) : JFIFImage :=
  JFIFImage.mk img.version img.units img.dimensions img.thumbnail_dimensions
    img.comment img.huffman_ac_tables img.huffman_dc_tables
    img.quantization_tables fh img.data_index img.raw_data

/-- u8s_to_u16 (jfif.rs lines 5-9): big-endian pair of the first two bytes
of a slice; indexing past the end aborts as in Rust. -/
def u8s_to_u16 (bytes : List ℕ) : Outcome ℕ :=
  Outcome.bind (geti bytes 0) fun msb =>
  Outcome.bind (geti bytes 1) fun lsb =>
  Outcome.ok (msb * 256 + lsb)

/-- bytes_to_len (jfif.rs line 130): the declared segment length minus the
two length bytes, with usize wrapping (release semantics) when the
declared length is below two. -/
def bytes_to_len (a b : ℕ) : ℕ := (a * 256 + b + W - 2) % W

/-- The header comparison of JFIFImage::parse (jfif.rs lines 100-102):
true when bytes 0-10 do not match FF D8 FF E0 2-skipped-bytes J F I F 00.
Only evaluated after the length check, so plain getD reads are in
bounds. -/
def headerMismatchB (v : List ℕ) : Bool :=
  v.getD 0 0 != 255 || v.getD 1 0 != 216 || v.getD 2 0 != 255 ||
  v.getD 3 0 != 224 || v.getD 6 0 != 74 || v.getD 7 0 != 70 ||
  v.getD 8 0 != 73 || v.getD 9 0 != 70 || v.getD 10 0 != 0

/-- The part of JFIFImage::parse before the marker loop (jfif.rs lines
95-128): length check, header check, version, units, densities and
thumbnail dimensions, then the initial decoder state. -/
def JFIFImage.parseInit (vec : List ℕ) : Outcome JFIFImage :=
  if vec.length < 11 then Outcome.err ErrKind.tooShort
  else if headerMismatchB vec then Outcome.err ErrKind.headerMismatch
  else
    Outcome.bind (geti vec 11) fun b11 =>
    Outcome.bind (geti vec 12) fun b12 =>
    Outcome.bind (JFIFVersion.from_bytes b11 b12) fun version =>
    Outcome.bind (geti vec 13) fun b13 =>
    Outcome.bind (JFIFUnits.from_u8 b13) fun units =>
    Outcome.bind (subslice vec 14 16) fun s14 =>
    Outcome.bind (u8s_to_u16 s14) fun x_density =>
    Outcome.bind (subslice vec 16 18) fun s16 =>
    Outcome.bind (u8s_to_u16 s16) fun y_density =>
    Outcome.bind (geti vec 18) fun b18 =>
    Outcome.bind (geti vec 19) fun b19 =>
    Outcome.ok (JFIFImage.mk version units (x_density, y_density) (b18, b19)
      none [none, none, none, none] [none, none, none, none]
      [none, none, none, none] none 0 [])

/-- The comment branch (jfif.rs lines 138-149): the segment body is sliced
and UTF-8 decoded into a local that is never stored, so the state is
unchanged; only the slice bounds can abort. -/
def comment_branch (vec : List ℕ) (i dl : ℕ) (img : JFIFImage) :
    Outcome JFIFImage :=
  Outcome.bind (subslice vec ((i + 4) % W) ((i + 4 + dl) % W)) fun _ =>
  Outcome.ok img

/-- The quantization-table branch (jfif.rs lines 150-164): 4-bit precision
(bound but unused) and 4-bit identifier, then the raw table bytes stored
in the identifier's slot of the four-slot array. -/
def dqt_branch (vec : List ℕ) (i dl : ℕ) (img : JFIFImage) :
    Outcome JFIFImage :=
  Outcome.bind (geti vec ((i + 4) % W)) fun pq =>
  Outcome.bind (subslice vec ((i + 5) % W) ((i + 4 + dl) % W)) fun qv =>
  Outcome.bind (setArr img.quantization_tables (pq % 16) (some qv)) fun qts =>
  Outcome.ok (setQuantizationTables img qts)

/-- The baseline frame-header branch (jfif.rs lines 165-194): aborts with
the FIXME panic when the component count differs from one, otherwise
stores the parsed FrameHeader with its single component. -/
def sof_branch (vec : List ℕ) (i dl : ℕ) (img : JFIFImage) :
    Outcome JFIFImage :=
  Outcome.bind (geti vec ((i + 4) % W)) fun sample_precision =>
  Outcome.bind (sliceFrom vec ((i + 5) % W)) fun s5 =>
  Outcome.bind (u8s_to_u16 s5) fun num_lines =>
  Outcome.bind (sliceFrom vec ((i + 7) % W)) fun s7 =>
  Outcome.bind (u8s_to_u16 s7) fun samples_per_line =>
  Outcome.bind (geti vec ((i + 9) % W)) fun image_components =>
  if image_components ≠ 1 then Outcome.panic PanicKind.fixmeBaselineDCT
  else
    Outcome.bind (geti vec ((i + 10) % W)) fun component_id =>
    Outcome.bind (geti vec ((i + 11) % W)) fun hv =>
    Outcome.bind (geti vec ((i + 12) % W)) fun quantization_selector =>
    Outcome.ok (setFrameHeader img (some (FrameHeader.mk sample_precision
      num_lines samples_per_line image_components
      [FrameComponentHeader.mk component_id (hv / 16) (hv % 16)
        quantization_selector])))

/-- The define-Huffman-table branch (jfif.rs lines 195-213): 4-bit class
and destination id, sixteen counts, then the symbol bytes; the table is
stored in the class's four-slot array at the destination id. -/
def dht_branch (vec : List ℕ) (i dl : ℕ) (img : JFIFImage) :
    Outcome JFIFImage :=
  Outcome.bind (geti vec ((i + 4) % W)) fun tcid =>
  Outcome.bind (subslice vec ((i + 5) % W) ((i + 5 + 16) % W)) fun size_area =>
  Outcome.bind (subslice vec ((i + 5 + 16) % W) ((i + 4 + dl) % W)) fun data_area =>
  let huffman_table := huffman.Table.from_size_data_tables size_area data_area
  if tcid / 16 = 0 then
    Outcome.bind (setArr img.huffman_dc_tables (tcid % 16)
      (some huffman_table)) fun ts =>
    Outcome.ok (setDcTables img ts)
  else
    Outcome.bind (setArr img.huffman_ac_tables (tcid % 16)
      (some huffman_table)) fun ts =>
    Outcome.ok (setAcTables img ts)

/-- The block count of the scan loop (jfif.rs lines 274-276): ceiling
division of the two components of JFIFImage.dimensions — the APP0 density
pair — by eight, multiplied, all in wrapping u16 arithmetic. -/
def sosBlockCount (img : JFIFImage) : ℕ :=
  ((img.dimensions.1 + 7) % 65536 / 8) * ((img.dimensions.2 + 7) % 65536 / 8)
    % 65536

/-- The per-block body of the scan loop (jfif.rs lines 276-301): decode a
block at the byte cursor, abort unless it has 64 entries, dequantize
pointwise against the quantization table (zip truncates as iter().zip
does).  The source then converts to f32, applies the inverse DCT, rounds,
adds 128 and casts to u8 into a local vector that is never read again;
that dead computation cannot affect the function result and is not
modelled further.  The cursor advances by the bytes the block consumed. -/
def scan_loop (vec : List ℕ) (ac_table dc_table : huffman.Table)
    (quant_table : List ℕ) : ℕ → ℕ → Outcome ℕ
  | 0, i => Outcome.ok i
  | n + 1, i =>
    Outcome.bind (sliceFrom vec i) fun rest =>
    Outcome.bind (huffman.decode ac_table dc_table rest) fun dn =>
    if dn.1.length ≠ 64 then Outcome.panic PanicKind.blockLen
    else
      let _dequantized : List ℤ :=
        (quant_table.zip dn.1).map (fun qn => wrap16 ((qn.1 : ℤ) * qn.2))
      scan_loop vec ac_table dc_table quant_table n ((i + dn.2) % W)

/-- The start-of-scan branch (jfif.rs lines 214-302): scan header fields,
the FIXME panic when the component count differs from one, the internal
cursor bumps of the source, the expects on the AC, DC and quantization
tables and on the frame header, then the scan loop over
sosBlockCount img blocks.  Returns the state (unchanged, as in the
source) and the cursor after the entropy data. -/
def sos_branch (vec : List ℕ) (i dl : ℕ) (img : JFIFImage) :
    Outcome (JFIFImage × ℕ) :=
  Outcome.bind (geti vec ((i + 4) % W)) fun num_components =>
  if num_components ≠ 1 then Outcome.panic PanicKind.fixmeEasyWay
  else
    Outcome.bind (geti vec ((i + 5) % W)) fun scan_component_selector =>
    Outcome.bind (geti vec ((i + 6) % W)) fun tids =>
    let dc_table_id := tids / 16
    let ac_table_id := tids % 16
    let i2 := (i + 2 * num_components) % W
    Outcome.bind (geti vec ((i2 + 5) % W)) fun _start_spectral_section =>
    Outcome.bind (geti vec ((i2 + 6) % W)) fun _end_spectral_section =>
    Outcome.bind (geti vec ((i2 + 7) % W)) fun _al_ah =>
    let i3 := (i2 + 8) % W
    Outcome.bind (getArr img.huffman_ac_tables ac_table_id) fun ac_opt =>
    Outcome.bind (expectSome ac_opt PanicKind.missingACTable) fun ac_table =>
    Outcome.bind (getArr img.huffman_dc_tables dc_table_id) fun dc_opt =>
    Outcome.bind (expectSome dc_opt PanicKind.missingDCTable) fun dc_table =>
    Outcome.bind
      (match img.frame_header with
       | some fh =>
         match fh.component_header scan_component_selector with
         | some fch => Outcome.ok fch.quantization_selector
         | none => Outcome.panic PanicKind.noFrameComponent
       | none => Outcome.panic PanicKind.noFrameHeader) fun quant_table_id =>
    Outcome.bind (getArr img.quantization_tables quant_table_id) fun q_opt =>
    Outcome.bind (expectSome q_opt PanicKind.missingQuantTable) fun
      quant_table =>
    Outcome.bind
      (scan_loop vec ac_table dc_table quant_table (sosBlockCount img) i3)
      fun i4 =>
    Outcome.ok (img, i4)

/-- Result of one iteration of the marker loop: continue at a new cursor
with a new state, or the break of the unhandled-marker arm. -/
inductive StepRes where
  | cont : JFIFImage → ℕ → StepRes
  | brk : StepRes
deriving DecidableEq

/-- One iteration of the marker loop of JFIFImage::parse (jfif.rs lines
133-319).  The source reads the two length bytes before matching on the
marker; every non-break arm falls through to the common cursor advance
i + 4 + data_length (for start of scan, applied to the cursor the branch
already moved past the entropy data). -/
def step (vec : List ℕ) (img : JFIFImage) (i : ℕ) : Outcome StepRes :=
  Outcome.bind (geti vec ((i + 2) % W)) fun b2 =>
  Outcome.bind (geti vec ((i + 3) % W)) fun b3 =>
  let data_length := bytes_to_len b2 b3
  Outcome.bind (geti vec (i % W)) fun b0 =>
  Outcome.bind (geti vec ((i + 1) % W)) fun b1 =>
  if b0 = 255 ∧ b1 = 254 then
    Outcome.bind (comment_branch vec i data_length img) fun img2 =>
    Outcome.ok (StepRes.cont img2 ((i + 4 + data_length) % W))
  else if b0 = 255 ∧ b1 = 219 then
    Outcome.bind (dqt_branch vec i data_length img) fun img2 =>
    Outcome.ok (StepRes.cont img2 ((i + 4 + data_length) % W))
  else if b0 = 255 ∧ b1 = 192 then
    Outcome.bind (sof_branch vec i data_length img) fun img2 =>
    Outcome.ok (StepRes.cont img2 ((i + 4 + data_length) % W))
  else if b0 = 255 ∧ b1 = 196 then
    Outcome.bind (dht_branch vec i data_length img) fun img2 =>
    Outcome.ok (StepRes.cont img2 ((i + 4 + data_length) % W))
  else if b0 = 255 ∧ b1 = 218 then
    Outcome.bind (sos_branch vec i data_length img) fun r =>
    Outcome.ok (StepRes.cont r.1 ((r.2 + 4 + data_length) % W))
  else if b0 = 255 ∧ b1 = 221 then Outcome.panic PanicKind.restartIntervalDef
  else Outcome.ok StepRes.brk

/-- The marker loop of JFIFImage::parse, driven by fuel.  The only exit of
the source loop is the break of the unhandled-marker arm, after which the
function unconditionally aborts at the WHAT TO DO panic (jfif.rs line
320); the commented-out Ok return is never reached. -/
def parseLoop (vec : List ℕ) : ℕ → JFIFImage → ℕ → Outcome JFIFImage
  | 0, _, _ => Outcome.fuelOut
  | fuel + 1, img, i =>
    match step vec img i with
    | Outcome.ok (StepRes.cont img2 i2) => parseLoop vec fuel img2 i2
    | Outcome.ok StepRes.brk => Outcome.panic PanicKind.whatToDo
    | Outcome.err e => Outcome.err e
    | Outcome.panic p => Outcome.panic p
    | Outcome.fuelOut => Outcome.fuelOut

/-- JFIFImage::parse (jfif.rs lines 91-322): header parsing, then the
marker loop from byte 20.  Each loop iteration advances the cursor by at
least two while the cursor stays below the length (an iteration whose
reads leave the buffer aborts), so length + 1 units of fuel are enough
for every run. -/
def JFIFImage.parse (vec : List ℕ) : Outcome JFIFImage :=
  Outcome.bind (JFIFImage.parseInit vec) fun img =>
  parseLoop vec (vec.length + 1) img 20

/-- The hardcoded index table of the zigzag function (jfif.rs lines
385-388), transcribed digit for digit: its final entry is 53, not 63. -/
def zigzagIndices : List ℕ :=
  [0, 1, 8, 16, 9, 2, 3, 10, 17, 24, 32, 25, 18, 11, 4, 5, 12, 19, 26, 33,
   40, 48, 41, 34, 27, 20, 13, 6, 7, 14, 21, 28, 35, 42, 49, 56, 57, 50, 43,
   36, 29, 22, 15, 23, 30, 37, 44, 51, 58, 59, 52, 45, 38, 31, 39, 46, 53,
   60, 61, 54, 47, 55, 62, 53]

/-- zigzag (jfif.rs lines 377-394): aborts unless the input has exactly 64
entries, then reads the input at each table index in order (every table
entry is below 64, so the reads are in bounds). -/
def zigzag (vec : List ℤ) : Outcome (List ℤ) :=
  if vec.length ≠ 64 then Outcome.panic PanicKind.zigzagLen
  else Outcome.ok (zigzagIndices.map (fun idx => vec.getD idx 0))

end jfif

namespace Main

/-- SquareMatrix (main.rs lines 10-13), with f32 idealized as the real
numbers. -/
structure SquareMatrix where
  dimention : ℕ
  values : List ℝ

/-- The alpha closure of the DCT functions (main.rs lines 72-78). -/
noncomputable def alpha (u : ℕ) : ℝ := if u = 0 then 1 / Real.sqrt 2 else 1

/-- discrete_cosine_transform_inverse (main.rs lines 71-107): for each
spatial position, pushed in row-major order (outer loop y, inner loop x),
the double sum over v (outer) and u (inner) of
alpha(u) alpha(v) F(u,v) cos((2x+1)u pi/16) cos((2y+1)v pi/16), divided
by four. -/
noncomputable def discrete_cosine_transform_inverse (mat : SquareMatrix) :
    SquareMatrix :=
  SquareMatrix.mk mat.dimention
    ((List.range mat.dimention).flatMap (fun y : ℕ =>
      (List.range mat.dimention).map (fun x : ℕ =>
        (Finset.sum (Finset.range mat.dimention) fun v =>
          Finset.sum (Finset.range mat.dimention) fun u =>
            alpha u * alpha v *
              mat.values.getD (v * mat.dimention + u) 0 *
              Real.cos ((2 * (x : ℝ) + 1) * (u : ℝ) * Real.pi / 16) *
              Real.cos ((2 * (y : ℝ) + 1) * (v : ℝ) * Real.pi / 16)) / 4)))

/-- JFIFVersion of main.rs (lines 230-233), distinct from the jfif module
version type. -/
inductive JFIFVersion where
  | V1_01 : JFIFVersion
deriving DecidableEq

/-- JFIFVersion::from_bytes of main.rs (lines 235-248): an Option, unlike
the jfif module version. -/
def JFIFVersion.from_bytes (msb lsb : ℕ) : Option JFIFVersion :=
  match msb, lsb with
  | 1, 1 => some JFIFVersion.V1_01
  | _, _ => none

/-- JFIFHeader (main.rs lines 250-252): an empty struct. -/
structure JFIFHeader where
  unit : Unit
deriving DecidableEq

/-- The header comparison of parse_jfif_header (main.rs lines 263-265),
identical to the one in jfif.rs. -/
def headerMismatchB (v : List ℕ) : Bool :=
  v.getD 0 0 != 255 || v.getD 1 0 != 216 || v.getD 2 0 != 255 ||
  v.getD 3 0 != 224 || v.getD 6 0 != 74 || v.getD 7 0 != 70 ||
  v.getD 8 0 != 73 || v.getD 9 0 != 70 || v.getD 10 0 != 0

/-- parse_jfif_header (main.rs lines 254-272): None on short input, None
on header mismatch; otherwise it reads bytes 11 and 12 (an abort when the
buffer is 11 or 12 bytes long), prints the parsed version, and falls
through to the final None — the only values it ever returns are None or
an abort. -/
def parse_jfif_header (vec : List ℕ) : Outcome (Option JFIFHeader) :=
  if vec.length < 11 then Outcome.ok none
  else if headerMismatchB vec then Outcome.ok none
  else
    Outcome.bind (geti vec 11) fun b11 =>
    Outcome.bind (geti vec 12) fun b12 =>
    let _version := JFIFVersion.from_bytes b11 b12
    Outcome.ok none

/-- Whether a parse_jfif_header outcome delivers a header value. -/
def producesHeader : Outcome (Option JFIFHeader) → Bool
  | Outcome.ok (some _) => true
  | _ => false

end Main

namespace jfif

/-- The rounding half away from zero of Rust f32::round, on exact
rationals. -/
def f32round (q : ℚ) : ℤ :=
  if 0 ≤ q then Int.floor (q + 1 / 2) else Int.ceil (q - 1 / 2)

/-- The Rust saturating cast from a float to u8: negative values to 0,
values above 255 to 255, otherwise truncation toward zero. -/
def rust_as_u8 (q : ℚ) : ℕ :=
  if q < 0 then 0 else if 255 < q then 255 else (Int.floor q).toNat

/-- The block-assembler closure of the scan loop (jfif.rs lines 295-296):
(f.round() + 128) as u8, on an exact-rational idealization of f32. -/
def rounded_and_shifted (f : ℚ) : ℕ := rust_as_u8 ((f32round f : ℚ) + 128)

end jfif

namespace spec

/-- The specification formula of section 4.5: C(0) = 1 over root 2 and
C(k) = 1 for positive k. -/
noncomputable def Cdct (u : ℕ) : ℝ := if u = 0 then 1 / Real.sqrt 2 else 1

/-- The specification formula of section 4.5 for the inverse DCT of an
8 by 8 block: f(x,y) = (1/4) sum over u and v of
C(u) C(v) F(u,v) cos((2x+1)u pi/16) cos((2y+1)v pi/16). -/
noncomputable def idctSpecFormula (F : ℕ → ℕ → ℝ) (x y : ℕ) : ℝ :=
  1 / 4 *
    (Finset.sum (Finset.range 8) fun u =>
      Finset.sum (Finset.range 8) fun v =>
        Cdct u * Cdct v * F u v *
          Real.cos ((2 * (x : ℝ) + 1) * (u : ℝ) * Real.pi / 16) *
          Real.cos ((2 * (y : ℝ) + 1) * (v : ℝ) * Real.pi / 16))

/-- The sample value the specification's block assembler stores
(section 4.6): round, add 128, clamp to the sample range. -/
def clampSample (f : ℚ) : ℤ := min 255 (max 0 (jfif.f32round f + 128))

/-- The block count the claim derives from the frame header:
ceil(width/8) times ceil(height/8) with width the samples-per-line field
and height the number-of-lines field. -/
def scanBlockCount (fh : jfif.FrameHeader) : ℕ :=
  ((fh.samples_per_line + 7) / 8) * ((fh.num_lines + 7) / 8)

end spec

/-- A syntactically valid 20-byte JFIF preamble: SOI, APP0 marker, length,
the JFIF identifier, version 1.1, unit byte 1, the x and y densities as
four parameter bytes, and a zero thumbnail size. -/
def mkHeader (dxh dxl dyh dyl : ℕ) : List ℕ :=
  [255, 216, 255, 224, 0, 16, 74, 70, 73, 70, 0, 1, 1, 1,
   dxh, dxl, dyh, dyl, 0, 0]

/-- Input reaching the restart-interval arm: a valid preamble followed by
an FF DD segment of declared length 4. -/
def vdd : List ℕ := mkHeader 0 8 0 8 ++ [255, 221, 0, 4, 0, 1]

/-- Input reaching the frame-header arm with a component count of 2. -/
def vc0bad : List ℕ :=
  mkHeader 0 8 0 8 ++ [255, 192, 0, 11, 8, 0, 8, 0, 8, 2, 1, 17, 0]

/-- Input reaching the unhandled-marker arm: a valid preamble followed by
the end-of-image marker FF D9, which the loop does not recognize. -/
def vunk : List ℕ := mkHeader 0 8 0 8 ++ [255, 217, 0, 2]

/-- Input for the scan-block-count claim: APP0 densities (16, 8) but a
frame header declaring an 8 by 8 image. -/
def v4 : List ℕ :=
  mkHeader 0 16 0 8 ++ [255, 192, 0, 11, 8, 0, 8, 0, 8, 1, 1, 17, 0]

/-- The decoder state JFIFImage.parseInit builds from v4: densities
(16, 8), no tables, no frame header. -/
def img4 : jfif.JFIFImage :=
  jfif.JFIFImage.mk jfif.JFIFVersion.V1_01 jfif.JFIFUnits.NoUnits (16, 8)
    (0, 0) none [none, none, none, none] [none, none, none, none]
    [none, none, none, none] none 0 []

/-- The frame header the FF C0 segment of v4 declares: an 8 by 8
single-component image. -/
def fh4 : jfif.FrameHeader :=
  jfif.FrameHeader.mk 8 8 8 1 [jfif.FrameComponentHeader.mk 1 1 1 0]

/-- A minimal one-symbol Huffman table: one code of length one, symbol 0. -/
def htbl1 : huffman.Table :=
  huffman.Table.mk [1, 0, 0, 0, 0, 0, 0, 0, 0, 0, 0, 0, 0, 0, 0, 0] [0]

/-- A decoder state as it stands when the scanner reaches a start-of-scan
segment: densities (8, 8), the one-symbol table in the DC and AC slots of
id 0, an all-ones quantization table in slot 0, and a frame header for an
8 by 8 single-component image with quantization selector 0. -/
def imgS : jfif.JFIFImage :=
  jfif.JFIFImage.mk jfif.JFIFVersion.V1_01 jfif.JFIFUnits.NoUnits (8, 8)
    (0, 0) none [some htbl1, none, none, none] [some htbl1, none, none, none]
    [some (List.replicate 64 1), none, none, none]
    (some (jfif.FrameHeader.mk 8 8 8 1 [jfif.FrameComponentHeader.mk 1 1 1 0]))
    0 []

/-- An input whose byte 146 starts a start-of-scan segment of declared
length 8 (component count 1, component 1, table ids 0, spectral bytes
0 63 0) followed by one byte of entropy data encoding a single all-zero
block under the tables of imgS. -/
def vsos : List ℕ :=
  List.replicate 146 0 ++ [255, 218, 0, 8, 1, 1, 0, 0, 63, 0, 0]

/-- An input whose byte 20 starts a comment segment of declared length 4
with two body bytes. -/
def vcm : List ℕ := List.replicate 20 0 ++ [255, 254, 0, 4, 65, 66]

/-- The all-zero 64-entry block. -/
def v1z : List ℤ := List.replicate 64 0

/-- The 64-entry block that is zero everywhere except at index 63. -/
def v2z : List ℤ := List.replicate 63 0 ++ [1]

/-- An 11-byte buffer that passes the JFIF signature comparison exactly
(bytes 4 and 5 are unconstrained). -/
def v11 : List ℕ := [255, 216, 255, 224, 0, 0, 74, 70, 73, 70, 0]

/-- The all-zero 8 by 8 real matrix. -/
noncomputable def mat0 : Main.SquareMatrix :=
  Main.SquareMatrix.mk 8 (List.replicate 64 0)

set_option maxRecDepth 40000

theorem parseLoop_not_ok (vec : List ℕ) :
    ∀ (fuel : ℕ) (img : jfif.JFIFImage) (i : ℕ),
      (jfif.parseLoop vec fuel img i).isOk = false := by
  intro fuel
  induction fuel with
  | zero => intro img i; rfl
  | succ n ih =>
    intro img i
    rw [jfif.parseLoop]
    cases h : jfif.step vec img i with
    | ok r =>
      cases r with
      | cont img2 i2 => exact ih img2 i2
      | brk => rfl
    | err e => rfl
    | panic p => rfl
    | fuelOut => rfl

/-- Claim C9: for every input byte vector, JFIFImage::parse never returns
Ok — every execution path returns an Err value or aborts, so no caller
ever receives a decoded JFIFImage. -/
theorem parse_never_returns_ok (vec : List ℕ) :
    (jfif.JFIFImage.parse vec).isOk = false := by
  unfold jfif.JFIFImage.parse
  cases h : jfif.JFIFImage.parseInit vec with
  | ok img => exact parseLoop_not_ok vec (vec.length + 1) img 20
  | err e => rfl
  | panic p => rfl
  | fuelOut => rfl

/-- Claim C3: an input shorter than 11 bytes makes JFIFImage::parse fail
with the truncated-input error, and an input of length at least 11 whose
bytes 0-10 fail the FF D8 FF E0 two-skipped-bytes J F I F 00 comparison
makes it fail with the header-mismatch error; in both cases no image is
returned. -/
theorem parse_short_or_mismatched_input_errors (vec : List ℕ) :
    (vec.length < 11 → jfif.JFIFImage.parse vec = Outcome.err ErrKind.tooShort) ∧
    (11 ≤ vec.length → jfif.headerMismatchB vec = true →
      jfif.JFIFImage.parse vec = Outcome.err ErrKind.headerMismatch) := by
  constructor
  · intro h
    unfold jfif.JFIFImage.parse jfif.JFIFImage.parseInit
    rw [if_pos h]
    rfl
  · intro h1 h2
    unfold jfif.JFIFImage.parse jfif.JFIFImage.parseInit
    rw [if_neg (by omega : ¬vec.length < 11), if_pos h2]
    rfl

theorem parse_short_or_mismatched_input_errors_witness :
    ([(0 : ℕ)].length < 11 ∧
      jfif.JFIFImage.parse [0] = Outcome.err ErrKind.tooShort) ∧
    (11 ≤ (List.replicate 11 (0 : ℕ)).length ∧
      jfif.headerMismatchB (List.replicate 11 0) = true ∧
      jfif.JFIFImage.parse (List.replicate 11 0) =
        Outcome.err ErrKind.headerMismatch) :=
  ⟨⟨by decide, (parse_short_or_mismatched_input_errors [0]).1 (by decide)⟩,
   ⟨by decide, by decide,
    (parse_short_or_mismatched_input_errors (List.replicate 11 0)).2
      (by decide) (by decide)⟩⟩

/-- Claim C1: the hardcoded zigzag index table is not a bijection — its
entries at positions 56 and 63 are both 53 and the value 63 never occurs,
so two 64-entry blocks differing only at index 63 have the same zigzag
image and no inverse can round-trip every 64-element sequence. -/
theorem zigzag_table_not_bijective :
    jfif.zigzag v1z = Outcome.ok (List.replicate 64 0) ∧
    jfif.zigzag v2z = Outcome.ok (List.replicate 64 0) ∧
    v1z ≠ v2z ∧
    jfif.zigzagIndices.getD 56 0 = 53 ∧
    jfif.zigzagIndices.getD 63 0 = 53 ∧
    jfif.zigzagIndices.contains 63 = false := by
  refine ⟨by decide, by decide, by decide, by decide, by decide, by decide⟩

/-- Claim C2: on inputs declaring a component count other than one, or
carrying a restart-interval segment, JFIFImage::parse aborts the process
at the FIXME and restart-interval panics instead of returning a typed
unsupported-feature error. -/
theorem parse_panics_on_unsupported_features :
    jfif.JFIFImage.parse vdd = Outcome.panic PanicKind.restartIntervalDef ∧
    jfif.JFIFImage.parse vc0bad = Outcome.panic PanicKind.fixmeBaselineDCT :=
  ⟨by decide, by decide⟩

/-- Claim C6: on an input carrying an FF byte followed by a second byte
outside the recognized marker set, JFIFImage::parse aborts at the
WHAT TO DO panic instead of returning an unrecognized-marker error with
the offending offset. -/
theorem parse_panics_on_unknown_marker :
    jfif.JFIFImage.parse vunk = Outcome.panic PanicKind.whatToDo := by decide

/-- Claim C4: parsing v4 yields a state whose dimensions field holds the
APP0 densities (16, 8); stepping its frame-header segment records a frame
header declaring an 8 by 8 image, yet the scan loop block count computed
from the state is 2 — the density-derived value — while the count
ceil(width/8) times ceil(height/8) from the frame header fields is 1. -/
theorem scan_block_count_uses_density_not_frame_header :
    jfif.JFIFImage.parseInit v4 = Outcome.ok img4 ∧
    jfif.step v4 img4 20 =
      Outcome.ok (jfif.StepRes.cont (jfif.setFrameHeader img4 (some fh4)) 33) ∧
    (jfif.setFrameHeader img4 (some fh4)).frame_header = some fh4 ∧
    jfif.sosBlockCount (jfif.setFrameHeader img4 (some fh4)) = 2 ∧
    spec.scanBlockCount fh4 = 1 :=
  ⟨by decide, by decide, by decide, by decide, by decide⟩

/-- Claim C10 counterexample: an 11-byte buffer that passes the JFIF
signature comparison makes parse_jfif_header read byte 11 out of bounds
and abort, so it does not return None on every input. -/
theorem parse_jfif_header_aborts_on_matching_short_input :
    Main.parse_jfif_header v11 = Outcome.panic PanicKind.indexOOB := by decide

/-- Claim C10 (amended): whenever parse_jfif_header returns at all, it
returns None — it never produces a JFIFHeader value for any input. -/
theorem parse_jfif_header_never_produces_header (vec : List ℕ) :
    Main.producesHeader (Main.parse_jfif_header vec) = false := by
  by_cases h1 : vec.length < 11
  · rw [Main.parse_jfif_header, if_pos h1]; rfl
  · by_cases h2 : Main.headerMismatchB vec = true
    · rw [Main.parse_jfif_header, if_neg h1, if_pos h2]; rfl
    · rw [Main.parse_jfif_header, if_neg h1, if_neg h2]
      cases geti vec 11 with
      | ok b11 =>
        cases geti vec 12 with
        | ok b12 => rfl
        | err e => rfl
        | panic p => rfl
        | fuelOut => rfl
      | err e => rfl
      | panic p => rfl
      | fuelOut => rfl

theorem rust_as_u8_int (z : ℤ) :
    jfif.rust_as_u8 (z : ℚ) = (min 255 (max 0 z)).toNat := by
  unfold jfif.rust_as_u8
  by_cases h0 : z < 0
  · rw [if_pos (by exact_mod_cast h0)]
    omega
  · rw [if_neg (by exact_mod_cast h0)]
    by_cases h1 : (255 : ℤ) < z
    · rw [if_pos (by exact_mod_cast h1)]
      omega
    · rw [if_neg (by exact_mod_cast h1), Int.floor_intCast]
      omega

/-- Claim C5: the block assembler value (round, add 128, saturating cast
to u8) equals the clamp of the rounded and level-shifted residual to the
sample range, and in particular never exceeds 255. -/
theorem rounded_and_shifted_clamps (f : ℚ) :
    (jfif.rounded_and_shifted f : ℤ) = spec.clampSample f ∧
    jfif.rounded_and_shifted f ≤ 255 := by
  unfold jfif.rounded_and_shifted spec.clampSample
  have hcast : ((jfif.f32round f : ℚ) + 128) = ((jfif.f32round f + 128 : ℤ) : ℚ) := by
    push_cast
    ring
  rw [hcast, rust_as_u8_int]
  omega

theorem length_range_flatMap (g : ℕ → ℕ → ℝ) (m : ℕ) :
    ∀ n, ((List.range n).flatMap (fun j => (List.range m).map (g j))).length
      = n * m := by
  intro n
  induction n with
  | zero => simp
  | succ k ih =>
    rw [List.range_succ, List.flatMap_append, List.length_append, ih]
    simp [Nat.succ_mul]

theorem getD_range_flatMap (g : ℕ → ℕ → ℝ) (m : ℕ) :
    ∀ n y x, y < n → x < m →
      ((List.range n).flatMap (fun j => (List.range m).map (g j))).getD
        (y * m + x) 0 = g y x := by
  intro n
  induction n with
  | zero => intro y x hy _; omega
  | succ k ih =>
    intro y x hy hx
    rw [List.range_succ, List.flatMap_append]
    by_cases hyk : y < k
    · rw [List.getD_append]
      · exact ih y x hyk hx
      · rw [length_range_flatMap]
        calc y * m + x < y * m + m := by omega
          _ = (y + 1) * m := by ring
          _ ≤ k * m := Nat.mul_le_mul_right m (by omega)
    · have hyk2 : y = k := by omega
      subst hyk2
      rw [List.getD_append_right]
      · rw [length_range_flatMap]
        have hidx : y * m + x - y * m = x := by omega
        rw [hidx]
        simp only [List.flatMap_cons, List.flatMap_nil, List.append_nil]
        rw [List.getD_eq_getElem?_getD, List.getElem?_map,
          List.getElem?_range hx]
        rfl
      · rw [length_range_flatMap]
        omega

/-- Claim C7: for an 8 by 8 input block, each entry of
discrete_cosine_transform_inverse, read at row-major position y*8+x,
equals the specification formula
(1/4) sum over u and v of C(u) C(v) F(u,v) cos((2x+1)u pi/16)
cos((2y+1)v pi/16) with C(0) = 1 over root 2 and C(k) = 1 otherwise. -/
theorem idct_matches_spec_formula (mat : Main.SquareMatrix)
    (h : mat.dimention = 8) (x y : ℕ) (hx : x < 8) (hy : y < 8) :
    (Main.discrete_cosine_transform_inverse mat).values.getD (y * 8 + x) 0 =
      spec.idctSpecFormula (fun u v => mat.values.getD (v * 8 + u) 0) x y := by
  unfold Main.discrete_cosine_transform_inverse
  rw [h]
  rw [getD_range_flatMap _ 8 8 y x hy hx]
  unfold spec.idctSpecFormula spec.Cdct Main.alpha
  rw [Finset.sum_comm]
  ring

theorem idct_matches_spec_formula_witness :
    mat0.dimention = 8 ∧ (3 : ℕ) < 8 ∧ (2 : ℕ) < 8 ∧
    (Main.discrete_cosine_transform_inverse mat0).values.getD (2 * 8 + 3) 0 =
      spec.idctSpecFormula (fun u v => mat0.values.getD (v * 8 + u) 0) 3 2 :=
  ⟨rfl, by omega, by omega,
   idct_matches_spec_formula mat0 rfl 3 2 (by omega) (by omega)⟩

theorem advance_mod_eq (i L : ℕ) :
    (i + 4 + (L + W - 2) % W) % W = (i + 2 + L) % W := by
  unfold W
  omega

theorem bind_cont_advance (o : Outcome jfif.JFIFImage)
    (img2 : jfif.JFIFImage) (i i2 b2 b3 : ℕ)
    (h : Outcome.bind o (fun img3 => Outcome.ok (jfif.StepRes.cont img3
      ((i + 4 + jfif.bytes_to_len b2 b3) % W))) =
      Outcome.ok (jfif.StepRes.cont img2 i2)) :
    i2 = (i + 2 + (b2 * 256 + b3)) % W := by
  cases o with
  | ok a =>
    simp only [Outcome.bind, Outcome.ok.injEq, jfif.StepRes.cont.injEq] at h
    rw [← h.2]
    unfold jfif.bytes_to_len
    exact advance_mod_eq i (b2 * 256 + b3)
  | err e => simp [Outcome.bind] at h
  | panic p => simp [Outcome.bind] at h
  | fuelOut => simp [Outcome.bind] at h

/-- Claim C8 (amended): for the comment, quantization-table, frame-header
and Huffman-table segments, the scanner reads the two bytes after the
marker as a big-endian length inclusive of themselves, and whenever the
iteration completes with a continue it advances the cursor past the
marker by exactly 2 plus that declared length (modulo 2^64).  The
start-of-scan segment additionally advances past the entropy-coded data,
and restart-interval and unrecognized markers abort or stop without
advancing. -/
theorem handled_segment_advance (vec : List ℕ) (img img2 : jfif.JFIFImage)
    (i i2 b1 b2 b3 : ℕ)
    (h0 : geti vec (i % W) = Outcome.ok 255)
    (h1 : geti vec ((i + 1) % W) = Outcome.ok b1)
    (hb : b1 = 254 ∨ b1 = 219 ∨ b1 = 192 ∨ b1 = 196)
    (h2 : geti vec ((i + 2) % W) = Outcome.ok b2)
    (h3 : geti vec ((i + 3) % W) = Outcome.ok b3)
    (hstep : jfif.step vec img i = Outcome.ok (jfif.StepRes.cont img2 i2)) :
    i2 = (i + 2 + (b2 * 256 + b3)) % W := by
  unfold jfif.step at hstep
  rw [h2, h3, h0, h1] at hstep
  simp only [Outcome.bind] at hstep
  rcases hb with rfl | rfl | rfl | rfl
  · norm_num at hstep
    exact bind_cont_advance _ img2 i i2 b2 b3 hstep
  · norm_num at hstep
    exact bind_cont_advance _ img2 i i2 b2 b3 hstep
  · norm_num at hstep
    exact bind_cont_advance _ img2 i i2 b2 b3 hstep
  · norm_num at hstep
    exact bind_cont_advance _ img2 i i2 b2 b3 hstep

theorem handled_segment_advance_witness :
    geti vcm (20 % W) = Outcome.ok 255 ∧
    geti vcm ((20 + 1) % W) = Outcome.ok 254 ∧
    geti vcm ((20 + 2) % W) = Outcome.ok 0 ∧
    geti vcm ((20 + 3) % W) = Outcome.ok 4 ∧
    jfif.step vcm imgS 20 = Outcome.ok (jfif.StepRes.cont imgS 26) ∧
    26 = (20 + 2 + (0 * 256 + 4)) % W :=
  ⟨by decide, by decide, by decide, by decide, by decide,
   handled_segment_advance vcm imgS imgS 20 26 254 0 4 (by decide) (by decide)
     (Or.inl rfl) (by decide) (by decide) (by decide)⟩

/-- Claim C8 counterexample: the claim fails as stated for segments other
than the four table and header segments.  At the start-of-scan segment of
vsos (declared length 8 at byte 146) the iteration continues at cursor
167, not at 146 + 2 + 8 = 156, because the scanner also advances past the
scan header and entropy data; at a restart-interval segment the iteration
aborts; at an unrecognized marker it stops with a break — in neither case
advancing by 2 plus the declared length. -/
theorem segment_advance_fails_beyond_handled_markers :
    jfif.step vsos imgS 146 = Outcome.ok (jfif.StepRes.cont imgS 167) ∧
    (146 + 2 + (0 * 256 + 8)) % W = 156 ∧
    (167 : ℕ) ≠ 156 ∧
    jfif.step vdd imgS 20 = Outcome.panic PanicKind.restartIntervalDef ∧
    jfif.step vunk imgS 20 = Outcome.ok jfif.StepRes.brk :=
  ⟨by decide, by decide, by decide, by decide, by decide⟩
